import Mathlib

/-!
Verification development for the QobuzDL-Bot core: a shallow embedding of
`qobuz_client.py`, `downloader.py` and `metadata_utils.py`, with theorems
settling the behavioural claims about secret discovery, request signing,
the download pipeline and metadata formatting.

Network and filesystem effects are made explicit: HTTP responses are
oracle functions supplied as inputs, the filesystem is a list of
(path, bytes) entries, and every issued HTTP request bumps a counter.
-/

namespace QDL

/-! ## Small Python-semantics helpers -/

/-- Python truthiness of an optional string (`if s:`): `None` and `""` are falsy. -/
def pyTruthy : Option String → Bool
  | none => false
  | some s => !(s == "")

/-- `f"{n:02}"`: zero-pad a natural number to at least two digits. -/
def pad2 (n : Nat) : String := if n < 10 then "0" ++ toString n else toString n

/-- `s.split("-")[0]`: the prefix of `s` before the first `'-'`
(the whole string when there is none; `""` stays `""`). -/
def yearOf (s : String) : String := String.mk (s.data.takeWhile (fun c => !(c == '-')))

/-- Models `pathvalidate.sanitize_filename`: strips characters that are invalid
in filenames (path separators, reserved punctuation, control characters).
The claims only rely on this being a fixed deterministic function. -/
def sanitize_filename (s : String) : String :=
  String.mk (s.data.filter (fun c =>
    !("\\/:*?\"<>|".data.contains c) && 32 ≤ c.toNat))

/-- Replace every occurrence of `pat` (nonempty) by `rep`, left to right,
non-overlapping — the semantics of Python `str.replace`. Fuel-structural. -/
def listReplace (pat rep : List Char) : Nat → List Char → List Char
  | 0, cs => cs
  | fuel+1, cs =>
    match cs with
    | [] => []
    | c :: cs' =>
      if pat ≠ [] ∧ pat.isPrefixOf cs then
        rep ++ listReplace pat rep fuel (cs.drop pat.length)
      else
        c :: listReplace pat rep fuel cs'

/-- Python `s.replace(pat, rep)` for a nonempty pattern. -/
def pyReplace (s pat rep : String) : String :=
  String.mk (listReplace pat.data rep.data s.data.length s.data)

/-- Python `s.lower()` (ASCII case folding suffices for the scraped names). -/
def strLower (s : String) : String := String.mk (s.data.map Char.toLower)

/-- Python `s.capitalize()`: first character upper-cased, the rest lower-cased. -/
def pyCapitalize (s : String) : String :=
  match s.data with
  | [] => ""
  | c :: cs => String.mk (Char.toUpper c :: cs.map Char.toLower)

/-- `os.path.dirname` for forward-slash paths: everything before the last `/`. -/
def dirnameOf (s : String) : String :=
  String.mk ((s.data.reverse.dropWhile (fun c => !(c == '/'))).drop 1 |>.reverse)

/-! ## UTF-8 encoding and decoding (Python `str.encode` / `bytes.decode`) -/

/-- UTF-8 encoding of one character. -/
def utf8EncodeChar (c : Char) : List Nat :=
  let n := c.toNat
  if n < 128 then [n]
  else if n < 2048 then [192 + n / 64, 128 + n % 64]
  else if n < 65536 then [224 + n / 4096, 128 + (n / 64) % 64, 128 + n % 64]
  else [240 + n / 262144, 128 + (n / 4096) % 64, 128 + (n / 64) % 64, 128 + n % 64]

/-- UTF-8 encoding of a string (Python `s.encode("utf-8")`). -/
def utf8Encode (s : String) : List Nat :=
  s.data.foldr (fun c acc => utf8EncodeChar c ++ acc) []

/-- Is the byte a UTF-8 continuation byte? -/
def utf8Cont (b : Nat) : Bool := 128 ≤ b && b ≤ 191

/-- Strict UTF-8 decoding, rejecting overlong forms and surrogates, like
Python `bytes.decode("utf-8")`. Fuel-structural on the byte count. -/
def utf8DecodeAux : Nat → List Nat → List Char → Option (List Char)
  | _, [], acc => some acc.reverse
  | 0, _ :: _, _ => none
  | fuel+1, b :: rest, acc =>
    if b < 128 then utf8DecodeAux fuel rest (Char.ofNat b :: acc)
    else if 194 ≤ b ∧ b ≤ 223 then
      match rest with
      | c1 :: rest' =>
        if utf8Cont c1 then
          utf8DecodeAux fuel rest' (Char.ofNat ((b - 192) * 64 + (c1 - 128)) :: acc)
        else none
      | _ => none
    else if 224 ≤ b ∧ b ≤ 239 then
      match rest with
      | c1 :: c2 :: rest' =>
        let lo1 := if b = 224 then 160 else 128
        let hi1 := if b = 237 then 159 else 191
        if (lo1 ≤ c1 ∧ c1 ≤ hi1) ∧ utf8Cont c2 then
          utf8DecodeAux fuel rest'
            (Char.ofNat ((b - 224) * 4096 + (c1 - 128) * 64 + (c2 - 128)) :: acc)
        else none
      | _ => none
    else if 240 ≤ b ∧ b ≤ 244 then
      match rest with
      | c1 :: c2 :: c3 :: rest' =>
        let lo1 := if b = 240 then 144 else 128
        let hi1 := if b = 244 then 143 else 191
        if (lo1 ≤ c1 ∧ c1 ≤ hi1) ∧ utf8Cont c2 ∧ utf8Cont c3 then
          utf8DecodeAux fuel rest'
            (Char.ofNat ((b - 240) * 262144 + (c1 - 128) * 4096 + (c2 - 128) * 64 + (c3 - 128)) :: acc)
        else none
      | _ => none
    else none

/-- Python `bytes.decode("utf-8")`: `none` models a raised `UnicodeDecodeError`. -/
def utf8Decode (bs : List Nat) : Option String :=
  (utf8DecodeAux bs.length bs []).map String.mk

/-! ## Base64 (Python `base64.standard_b64decode`) -/

/-- Value of a standard-alphabet base64 character. -/
def b64val (c : Char) : Option Nat :=
  if 'A' ≤ c ∧ c ≤ 'Z' then some (c.toNat - 65)
  else if 'a' ≤ c ∧ c ≤ 'z' then some (c.toNat - 97 + 26)
  else if '0' ≤ c ∧ c ≤ '9' then some (c.toNat - 48 + 52)
  else if c = '+' then some 62
  else if c = '/' then some 63
  else none

/-- Decode a final partial base64 group (2 chars → 1 byte, 3 chars → 2 bytes). -/
def b64partial : List Nat → List Nat
  | [a, b] => [a * 4 + b / 16]
  | [a, b, c] => [a * 4 + b / 16, (b % 16) * 16 + c / 4]
  | _ => []

/-- Decode base64 sextet values group-wise. -/
def b64groups : List Nat → List Nat
  | a :: b :: c :: d :: rest =>
      (a * 4 + b / 16) :: ((b % 16) * 16 + c / 4) :: ((c % 4) * 64 + d) :: b64groups rest
  | rest => b64partial rest

/-- Models `base64.standard_b64decode`: characters outside the alphabet are
discarded, the remaining length (padding included) must be a multiple of 4,
and a dangling single data character is an error. `none` models a raised
`binascii.Error`. -/
def b64decodeBytes (s : String) : Option (List Nat) :=
  let cs := s.data.filter (fun c => (b64val c).isSome || c == '=')
  if cs.length % 4 ≠ 0 then none
  else
    let dataChars := cs.takeWhile (fun c => !(c == '='))
    if dataChars.length % 4 = 1 then none
    else some (b64groups (dataChars.filterMap b64val))

/-! ## MD5 over Nat with explicit mod 2^32 (`hashlib.md5(...).hexdigest()`) -/

/-- Addition modulo 2^32. -/
def a32 (x y : Nat) : Nat := (x + y) % 4294967296

/-- Bitwise complement within 32 bits (argument below 2^32). -/
def not32 (x : Nat) : Nat := 4294967295 - x

/-- 32-bit left rotation (argument below 2^32, rotation at most 32). -/
def rotl32 (x n : Nat) : Nat :=
  (x % 2 ^ (32 - n)) * 2 ^ n + x / 2 ^ (32 - n)

/-- MD5 round function F. -/
def mdF (b c d : Nat) : Nat := (b.land c).lor ((not32 b).land d)

/-- MD5 round function G. -/
def mdG (b c d : Nat) : Nat := (d.land b).lor ((not32 d).land c)

/-- MD5 round function H. -/
def mdH (b c d : Nat) : Nat := (b.xor c).xor d

/-- MD5 round function I. -/
def mdI (b c d : Nat) : Nat := c.xor (b.lor (not32 d))

/-- The 64 MD5 sine-derived constants. -/
def mdK : List Nat :=
  [0xd76aa478, 0xe8c7b756, 0x242070db, 0xc1bdceee,
   0xf57c0faf, 0x4787c62a, 0xa8304613, 0xfd469501,
   0x698098d8, 0x8b44f7af, 0xffff5bb1, 0x895cd7be,
   0x6b901122, 0xfd987193, 0xa679438e, 0x49b40821,
   0xf61e2562, 0xc040b340, 0x265e5a51, 0xe9b6c7aa,
   0xd62f105d, 0x02441453, 0xd8a1e681, 0xe7d3fbc8,
   0x21e1cde6, 0xc33707d6, 0xf4d50d87, 0x455a14ed,
   0xa9e3e905, 0xfcefa3f8, 0x676f02d9, 0x8d2a4c8a,
   0xfffa3942, 0x8771f681, 0x6d9d6122, 0xfde5380c,
   0xa4beea44, 0x4bdecfa9, 0xf6bb4b60, 0xbebfbc70,
   0x289b7ec6, 0xeaa127fa, 0xd4ef3085, 0x04881d05,
   0xd9d4d039, 0xe6db99e5, 0x1fa27cf8, 0xc4ac5665,
   0xf4292244, 0x432aff97, 0xab9423a7, 0xfc93a039,
   0x655b59c3, 0x8f0ccc92, 0xffeff47d, 0x85845dd1,
   0x6fa87e4f, 0xfe2ce6e0, 0xa3014314, 0x4e0811a1,
   0xf7537e82, 0xbd3af235, 0x2ad7d2bb, 0xeb86d391]

/-- The 64 MD5 per-step rotation amounts. -/
def mdS : List Nat :=
  [7, 12, 17, 22, 7, 12, 17, 22, 7, 12, 17, 22, 7, 12, 17, 22,
   5, 9, 14, 20, 5, 9, 14, 20, 5, 9, 14, 20, 5, 9, 14, 20,
   4, 11, 16, 23, 4, 11, 16, 23, 4, 11, 16, 23, 4, 11, 16, 23,
   6, 10, 15, 21, 6, 10, 15, 21, 6, 10, 15, 21, 6, 10, 15, 21]

/-- A natural number as `k` little-endian bytes. -/
def toLE : Nat → Nat → List Nat
  | 0, _ => []
  | k+1, n => (n % 256) :: toLE k (n / 256)

/-- Bytes, four at a time, as little-endian 32-bit words. -/
def toWordsLE : List Nat → List Nat
  | b0 :: b1 :: b2 :: b3 :: rest =>
      (b0 + 256 * b1 + 65536 * b2 + 16777216 * b3) :: toWordsLE rest
  | _ => []

/-- MD5 padding: append `0x80`, zero-fill to 56 mod 64, append the 64-bit
little-endian bit length. -/
def mdPad (msg : List Nat) : List Nat :=
  msg ++ [128] ++ List.replicate ((119 - msg.length % 64) % 64) 0
      ++ toLE 8 (msg.length * 8)

/-- One MD5 step (step index `i`, message words `M`). -/
def mdStep (M : List Nat) (s : Nat × Nat × Nat × Nat) (i : Nat) : Nat × Nat × Nat × Nat :=
  let a := s.1
  let b := s.2.1
  let c := s.2.2.1
  let d := s.2.2.2
  let fg : Nat × Nat :=
    if i < 16 then (mdF b c d, i)
    else if i < 32 then (mdG b c d, (5 * i + 1) % 16)
    else if i < 48 then (mdH b c d, (3 * i + 5) % 16)
    else (mdI b c d, (7 * i) % 16)
  let tmp := a32 (a32 (a32 a fg.1) (mdK.getD i 0)) (M.getD fg.2 0)
  (d, a32 b (rotl32 tmp (mdS.getD i 0)), b, c)

/-- Process one 64-byte chunk. -/
def mdChunk (st : Nat × Nat × Nat × Nat) (chunk : List Nat) : Nat × Nat × Nat × Nat :=
  let M := toWordsLE chunk
  let r := (List.range 64).foldl (mdStep M) st
  (a32 st.1 r.1, a32 st.2.1 r.2.1, a32 st.2.2.1 r.2.2.1, a32 st.2.2.2 r.2.2.2)

/-- Split into 64-byte chunks (fuel-structural). -/
def toChunks : Nat → List Nat → List (List Nat)
  | 0, _ => []
  | _+1, [] => []
  | fuel+1, l => l.take 64 :: toChunks fuel (l.drop 64)

/-- One lowercase hex digit. -/
def hexDigit (n : Nat) : String := String.mk ["0123456789abcdef".data.getD n '0']

/-- A byte as two lowercase hex digits. -/
def hexByte (n : Nat) : String := hexDigit (n / 16) ++ hexDigit (n % 16)

/-- A 32-bit word as eight hex digits, little-endian byte order. -/
def wordToHexLE (w : Nat) : String :=
  hexByte (w % 256) ++ hexByte (w / 256 % 256) ++ hexByte (w / 65536 % 256)
    ++ hexByte (w / 16777216 % 256)

/-- The MD5 digest of a byte sequence, as a lowercase hex string —
`hashlib.md5(bytes).hexdigest()`. -/
def md5hex (msg : List Nat) : String :=
  let padded := mdPad msg
  let r := (toChunks padded.length padded).foldl mdChunk
    (0x67452301, 0xefcdab89, 0x98badcfe, 0x10325476)
  wordToHexLE r.1 ++ wordToHexLE r.2.1 ++ wordToHexLE r.2.2.1 ++ wordToHexLE r.2.2.2

/-! ## qobuz_client.py — request signing (`QobuzClient._generate_sig`) -/

/-- The `params` dict passed to `_generate_sig` for `getFileUrl`-style calls. -/
structure SigParams where
  track_id : Nat
  format_id : Nat
deriving DecidableEq, Repr

/-- The `{"ts": ..., "sig": ...}` dict returned by `_generate_sig`. -/
structure SigResult where
  ts : Nat
  sig : String
deriving DecidableEq, Repr

/-- `QobuzClient._generate_sig`: builds the method-specific canonical string
and MD5-hashes it. The wall-clock `int(time.time())` is the explicit
parameter `ts`. -/
def generate_sig (entity method : String) (params : SigParams) (secret : String)
    (ts : Nat) : SigResult :=
  let r_sig :=
    if method == "getFileUrl" then
      "trackgetFileUrlformat_id" ++ toString params.format_id ++
        "intentstreamtrack_id" ++ toString params.track_id ++ toString ts ++ secret
    else if method == "getUserFavorites" then
      "favoritegetUserFavorites" ++ toString ts ++ secret
    else
      entity ++ method ++ toString ts ++ secret
  { ts := ts, sig := md5hex (utf8Encode r_sig) }

/-! ## qobuz_client.py — secret probing (`QobuzClient._find_active_secret`) -/

/-- The query parameters of the probe request issued for each candidate secret. -/
structure ProbeParams where
  request_ts : Nat
  request_sig : String
  track_id : Nat
  format_id : Nat
  intent : String
deriving DecidableEq, Repr

/-- The fixed test track id used by `_find_active_secret`. -/
def test_track_id : Nat := 5966783

/-- The signed `track/getFileUrl` probe request built for one candidate secret. -/
def probe_params (ts : Nat) (secret : String) : ProbeParams :=
  let sig := generate_sig "track" "getFileUrl"
    { track_id := test_track_id, format_id := 5 } secret ts
  { request_ts := sig.ts, request_sig := sig.sig,
    track_id := test_track_id, format_id := 5, intent := "stream" }

/-- The secret-related fields of a `QobuzClient` instance. -/
structure ClientState where
  active_secret : Option String
  secrets : List String
deriving DecidableEq, Repr

/-- Outcome of `_find_active_secret`: either the mutated client state, or the
raised `Exception("Could not find a valid app secret")` with the client state
left untouched (the method only assigns `active_secret` on success). -/
inductive FindOutcome where
  | found (st : ClientState)
  | failed (st : ClientState)
deriving DecidableEq, Repr

/-- The probing loop of `_find_active_secret`. `resp` maps a probe request to
the HTTP status of the response, `none` modelling an exception raised during
the request (the bare `except: continue`). Empty candidates are skipped
(`if not secret: continue`); a 200 or 403 status stores the candidate and
stops; any other status — 401 included, which is merely logged — falls
through to the next candidate. -/
def findLoop (resp : ProbeParams → Option Nat) (ts : Nat) (st : ClientState) :
    List String → FindOutcome
  | [] => .failed st
  | s :: rest =>
    if s == "" then findLoop resp ts st rest
    else
      match resp (probe_params ts s) with
      | some code =>
        if code = 200 ∨ code = 403 then .found { st with active_secret := some s }
        else findLoop resp ts st rest
      | none => findLoop resp ts st rest

/-- `QobuzClient._find_active_secret`. -/
def find_active_secret (resp : ProbeParams → Option Nat) (ts : Nat)
    (st : ClientState) : FindOutcome :=
  findLoop resp ts st st.secrets

/-- A candidate secret is accepted by the probe: it is nonempty and the probe
response status is 200 or 403. -/
def probeAccepted (resp : ProbeParams → Option Nat) (ts : Nat) (s : String) : Bool :=
  !(s == "") &&
    match resp (probe_params ts s) with
    | some code => code == 200 || code == 403
    | none => false

/-! ## qobuz_client.py — bundle scraping (`QobuzClient._scrape_bundle`)

The regex-extraction steps are represented by their results: `pairs` is the
list of (seed, timezone) captures of `_SEED_TIMEZONE_REGEX` in document
order, and `entries` the list of (timezone, info, extras) captures of the
info/extras regex in document order. The dict `secrets_raw` is an
`OrderedDict`: insertion order is kept, overwriting a key keeps its
position. -/

/-- An `OrderedDict[str, list[str]]` as an ordered association list. -/
abbrev ODict := List (String × List String)

/-- `secrets_raw[timezone] = [seed]`: overwrite in place, or append a new key. -/
def odSet (d : ODict) (k : String) (v : List String) : ODict :=
  if d.any (fun p => p.1 == k) then
    d.map (fun p => if p.1 == k then (p.1, v) else p)
  else d ++ [(k, v)]

/-- `secrets_raw[tz] += [info, extras]` for a key already present
(the composed regex guarantees presence in the source; on an absent key this
model is a no-op where CPython would raise `KeyError`). -/
def odAppend (d : ODict) (k : String) (vs : List String) : ODict :=
  d.map (fun p => if p.1 == k then (p.1, p.2 ++ vs) else p)

/-- The `for match in seed_matches: secrets_raw[timezone] = [seed]` loop. -/
def buildSeedDict (pairs : List (String × String)) : ODict :=
  pairs.foldl (fun d p => odSet d p.2 [p.1]) []

/-- `secrets_raw.move_to_end(keypairs[1][0], last=False)` guarded by
`len(keypairs) > 1`: the second entry moves to the front. -/
def moveSecondToFront (d : ODict) : ODict :=
  match d with
  | e0 :: e1 :: rest => e1 :: e0 :: rest
  | _ => d

/-- The `for match in info_extras_matches` loop: an entry is processed when
its (capitalized) timezone is one of the alternatives of the composed regex,
i.e. a capitalized key of the dict; `[info, extras]` is then appended under
the lower-cased timezone. `keys` is the key list the pattern was built from
(fixed before the loop, and key sets never change). -/
def applyInfoExtras (keys : List String) (d : ODict)
    (entries : List (String × String × String)) : ODict :=
  entries.foldl
    (fun d e =>
      if (keys.map pyCapitalize).contains e.1 then
        odAppend d (strLower e.1) [e.2.1, e.2.2]
      else d)
    d

/-- One candidate's decoding: `base64.standard_b64decode("".join(values)[:-44])
.decode("utf-8")`, `none` modelling a raised exception. -/
def decodeSecret (joined : String) : Option String :=
  (b64decodeBytes (joined.dropRight 44)).bind utf8Decode

/-- One iteration of the decoding loop: a successful decode is appended,
a failed one is skipped. -/
def decodeStep (o : Option String) (tail : List String) : List String :=
  match o with
  | some s => s :: tail
  | none => tail

/-- The final `for tz in secrets_raw: try ... append ... except: continue`
loop producing `self.secrets`. -/
def decodeLoop : ODict → List String
  | [] => []
  | p :: rest => decodeStep (decodeSecret (String.join p.2)) (decodeLoop rest)

/-- The candidate dict right after seed collection and the
second-to-front reordering. -/
def candidateDict (pairs : List (String × String)) : ODict :=
  moveSecondToFront (buildSeedDict pairs)

/-- The candidate dict after the info/extras pass. -/
def scrapeDict (pairs : List (String × String))
    (entries : List (String × String × String)) : ODict :=
  applyInfoExtras ((candidateDict pairs).map (fun p => p.1)) (candidateDict pairs) entries

/-- `self.secrets` as computed by `_scrape_bundle` from the regex captures. -/
def scrape_secrets (pairs : List (String × String))
    (entries : List (String × String × String)) : List String :=
  decodeLoop (scrapeDict pairs entries)

/-- The concatenated seed+info+extras string accumulated for one timezone
(first matching entry of the scraped dict). -/
def combinedOf (pairs : List (String × String))
    (entries : List (String × String × String)) (tz : String) : String :=
  String.join ((((scrapeDict pairs entries).find? (fun p => p.1 == tz)).map
    (fun p => p.2)).getD [])

/-! ## metadata_utils.py -/

/-- The first of the two glyph constants of `metadata_utils.py`
(`COPYRIGHT = "℗"` — note: this is the phonogram sign ℗,
despite the name). -/
def COPYRIGHT : String := "℗"

/-- The second glyph constant (`PHON_COPYRIGHT = "©"` — note: this is
the copyright sign ©, despite the name). -/
def PHON_COPYRIGHT : String := "©"

/-- `metadata_utils.format_copyright`: guarded by Python truthiness of `s`,
replaces `"(P)"` by `PHON_COPYRIGHT` and then `"(C)"` by `COPYRIGHT`. -/
def format_copyright (s : String) : String :=
  if s == "" then s
  else pyReplace (pyReplace s "(P)" PHON_COPYRIGHT) "(C)" COPYRIGHT

/-- The track fields used by the core (`track/get` response). `album` is the
nested `track_meta["album"]` object. Forward declaration ordering: the album
structure is defined first below. -/
structure AlbumImage where
  large : String
  small : String
deriving DecidableEq, Repr

/-- One entry of `album_data["tracks"]["items"]` (only the fields the album
loop reads). -/
structure TrackItem where
  id : Nat
  title : String
deriving DecidableEq, Repr

/-- The album fields used by the core. `artist_name` flattens
`album_data["artist"]["name"]`; `release_date_original` defaults to `""`
(`dict.get`). -/
structure AlbumData where
  artist_name : String
  title : String
  release_date_original : String
  image : AlbumImage
  tracks : List TrackItem
deriving DecidableEq, Repr

/-- The track fields used by the core (`track/get` response); `album` is the
nested album object of the response. Optional `version`/`work`/`duration`
model absent dict keys. -/
structure TrackData where
  title : String
  version : Option String
  work : Option String
  track_number : Nat
  duration : Option Nat
  album : AlbumData
deriving DecidableEq, Repr

/-- `metadata_utils.get_title`: append a truthy version in parentheses,
prefix a truthy work with `": "`. -/
def get_title (t : TrackData) : String :=
  let title := t.title
  let title := if pyTruthy t.version then title ++ " (" ++ t.version.getD "" ++ ")" else title
  if pyTruthy t.work then t.work.getD "" ++ ": " ++ title else title

/-- The stream info mutagen reports for a parsed FLAC file.
`bits_per_sample` is optional (`getattr(..., 16)` default); `bitrate` is the
reported stream bitrate (0 when absent); `fallbackBitrate` stands for the
float estimate `int(size*8/length/1000)` computed when the reported bitrate
is missing — the floating-point arithmetic itself is abstracted as a field. -/
structure FlacStreamInfo where
  bits_per_sample : Option Nat
  sample_rate : Nat
  bitrate : Nat
  fallbackBitrate : Nat
deriving DecidableEq, Repr

/-- Drop trailing zero characters. -/
def stripTrailingZeros (cs : List Char) : List Char :=
  (cs.reverse.dropWhile (fun c => c == '0')).reverse

/-- `f"{sr_hz/1000:g}"`: the sample rate in kHz with trailing zeros stripped.
Exact model of CPython `%g` for every sample rate below 10^6 Hz (six
significant digits suffice there; the FLAC format caps sample rates below
that bound). -/
def formatKHz (sr : Nat) : String :=
  let i := sr / 1000
  let f := sr % 1000
  if f = 0 then toString i
  else
    let s := toString f
    let padded := List.replicate (3 - s.length) '0' ++ s.data
    toString i ++ "." ++ String.mk (stripTrailingZeros padded)

/-- A successfully parsed audio file as seen by `get_audio_info`
(dispatch on the filename extension). -/
inductive AudioFileInfo where
  | flac (info : FlacStreamInfo)
  | mp3 (bitrate : Nat)
  | other
deriving DecidableEq, Repr

/-- `metadata_utils.get_audio_info` on a successfully parsed file: the
formatted caption string with the Hi-Res/CD classification. -/
def get_audio_info : AudioFileInfo → String
  | .flac info =>
    let bt_depth := info.bits_per_sample.getD 16
    let quality_type :=
      if bt_depth > 16 ∨ info.sample_rate > 48000 then "Hi-Res" else "CD"
    let bitrate := if info.bitrate > 0 then info.bitrate / 1000 else info.fallbackBitrate
    "FLAC " ++ quality_type ++ " " ++ toString bt_depth ++ "-Bit / " ++
      formatKHz info.sample_rate ++ " kHz / " ++ toString bitrate ++ " kbps"
  | .mp3 bitrate => "MP3 " ++ toString (bitrate / 1000) ++ " kbps"
  | .other => ""

/-! ## downloader.py — explicit filesystem and network state

The filesystem is a list of (path, bytes) files; every HTTP request issued
(metadata fetch, file-URL resolution, cover probe, audio stream) increments
`netCalls`. Directory creation (`os.makedirs`) has no observable effect on
this model and is omitted. -/

/-- The filesystem: a finite map from paths to byte contents. -/
abbrev Disk := List (String × List Nat)

/-- `os.path.exists`. -/
def Disk.hasFile (d : Disk) (p : String) : Bool := d.any (fun e => e.1 == p)

/-- Write (create or overwrite) a file. -/
def Disk.writeFile (d : Disk) (p : String) (c : List Nat) : Disk :=
  (p, c) :: d.filter (fun e => !(e.1 == p))

/-- `os.remove` (no-op on a missing file; the source guards with `exists`). -/
def Disk.removeFile (d : Disk) (p : String) : Disk :=
  d.filter (fun e => !(e.1 == p))

/-- Read a file's bytes. -/
def Disk.readFile (d : Disk) (p : String) : Option (List Nat) :=
  (d.find? (fun e => e.1 == p)).map (fun e => e.2)

/-- Downloader-side mutable state: the filesystem plus a counter of HTTP
requests issued so far. -/
structure DLState where
  disk : Disk
  netCalls : Nat
deriving DecidableEq, Repr

/-- Issue `n` HTTP requests. -/
def DLState.net (st : DLState) (n : Nat) : DLState :=
  { st with netCalls := st.netCalls + n }

/-- The external world of the downloader: responses of the provider and of
the CDN, plus the CPU-bound media transforms (PIL thumbnailing, mutagen
caption formatting) abstracted as pure functions. Metadata endpoints are
modelled as always succeeding; the failure modes the claims exercise are a
missing stream URL and a failing stream/cover request. -/
structure Env where
  trackData : Nat → TrackData
  albumData : Nat → AlbumData
  fileUrl : Nat → Option String
  streamResp : String → Except String (List Nat)
  coverResp : String → Option (Nat × List Nat)
  thumbBytes : List Nat → List Nat
  audioInfoOf : String → List Nat → String

/-- The `player_info` dict returned by `download_track`. -/
structure PlayerInfo where
  title : String
  performer : String
  duration : Option Nat
  cover : Option String
  thumbnail : Option String
  folder_path : String
deriving DecidableEq, Repr

/-- The value returned by `download_track`: the bare final path when the
file already exists (line 57 of `downloader.py`), or the
(path, caption, player_info) triple after a full download. -/
inductive TrackResult where
  | existing (path : String)
  | completed (path : String) (caption : String) (player : PlayerInfo)
deriving DecidableEq, Repr

/-- The candidate-URL loop of `_download_cover`: skip falsy URLs, issue a GET
(an exception during the request is `none` and is swallowed), write and
return on status 200, otherwise continue; `None` after exhaustion. -/
def coverLoop (resp : String → Option (Nat × List Nat)) (cover_path : String) :
    List String → DLState → Option String × DLState
  | [], st => (none, st)
  | url :: rest, st =>
    if url == "" then coverLoop resp cover_path rest st
    else
      match resp url with
      | some r =>
        if r.1 = 200 then
          (some cover_path,
           { disk := st.disk.writeFile cover_path r.2, netCalls := st.netCalls + 1 })
        else coverLoop resp cover_path rest (st.net 1)
      | none => coverLoop resp cover_path rest (st.net 1)

/-- `QobuzDownloader._download_cover`: return the existing `cover.jpg`
immediately, otherwise try the guessed original-resolution URL, the known
large URL, then the known small URL, in that order. -/
def download_cover (resp : String → Option (Nat × List Nat)) (img : AlbumImage)
    (folder_path : String) (st : DLState) : Option String × DLState :=
  let cover_path := folder_path ++ "/cover.jpg"
  if st.disk.hasFile cover_path then (some cover_path, st)
  else
    coverLoop resp cover_path
      [pyReplace img.large "_600.jpg" "_org.jpg", img.large, img.small] st

/-- `metadata_utils.create_thumbnail`: `None` for a missing/absent cover,
otherwise write `thumb.jpg` next to the cover (PIL resize/re-encode
abstracted as `thumbOf`) and return its path. PIL failures are not
modelled (they are caught and non-fatal in the caller anyway). -/
def create_thumbnail (thumbOf : List Nat → List Nat) (image_path : Option String)
    (st : DLState) : Option String × DLState :=
  match image_path with
  | none => (none, st)
  | some p =>
    match st.disk.readFile p with
    | none => (none, st)
    | some c =>
      let tp := dirnameOf p ++ "/thumb.jpg"
      (some tp, { st with disk := st.disk.writeFile tp (thumbOf c) })

/-- The tail of `tag_flac`/`tag_mp3`: the tagged temp file replaces any
pre-existing final file and is renamed onto the final path. The metadata
mutation itself is not observable by any claim, so the bytes are carried
over unchanged; the temp file always exists at this point in the flow. -/
def tag_finalize (tmp final : String) (st : DLState) : DLState :=
  let c := (st.disk.readFile tmp).getD []
  { st with disk := ((st.disk.removeFile final).writeFile final c).removeFile tmp }

/-- The folder `{artist} - {album} ({year})` under the download root, used
when no folder is supplied. -/
def mkFolderPath (base_path : String) (album : AlbumData) : String :=
  base_path ++ "/" ++ sanitize_filename
    (album.artist_name ++ " - " ++ album.title ++ " (" ++
      yearOf album.release_date_original ++ ")")

/-- The sanitized `"{NN}. {title}{ext}"` filename; quality tier 5 maps to
`.mp3`, every other tier to `.flac`. -/
def mkFileName (quality : Nat) (track : TrackData) : String :=
  let extension := if quality == 5 then ".mp3" else ".flac"
  sanitize_filename (pad2 track.track_number ++ ". " ++ get_title track ++ extension)

/-- The tail of `download_track` after the exists-check: cover fetch, audio
stream to the `.tmp` sibling, stale-thumbnail removal, thumbnail creation,
tagging with atomic rename, caption, and the returned triple. -/
def finishDownload (env : Env) (album : AlbumData) (track : TrackData)
    (url folder_path final_path : String) (st : DLState) :
    Except String TrackResult × DLState :=
  let tmp_path := final_path ++ ".tmp"
  let cov := download_cover env.coverResp album.image folder_path st
  let cover_path := cov.1
  let st := cov.2
  let st := st.net 1
  match env.streamResp url with
  | .error e => (.error e, st)
  | .ok bytes =>
    let st := { st with disk := st.disk.writeFile tmp_path bytes }
    let thumb0 := folder_path ++ "/thumb.jpg"
    let st := if st.disk.hasFile thumb0
      then { st with disk := st.disk.removeFile thumb0 } else st
    let th := create_thumbnail env.thumbBytes cover_path st
    let thumb_path := th.1
    let st := th.2
    let st := tag_finalize tmp_path final_path st
    let caption := env.audioInfoOf final_path ((st.disk.readFile final_path).getD [])
    let player_info : PlayerInfo :=
      { title := get_title track, performer := album.artist_name,
        duration := track.duration, cover := cover_path,
        thumbnail := thumb_path, folder_path := folder_path }
    (.ok (.completed final_path caption player_info), st)

/-- `QobuzDownloader.download_track`: fetch the track metadata (one request,
whether or not album context is supplied; the album falls back to the
track's nested album), resolve the file URL (one request; a missing/falsy
`url` raises), compute the destination path, short-circuit with the bare
path if it exists, otherwise run the full pipeline. -/
def download_track (env : Env) (quality : Nat) (base_path : String)
    (track_id : Nat) (album_ctx : Option AlbumData) (folder_ctx : Option String)
    (st : DLState) : Except String TrackResult × DLState :=
  let st := st.net 1
  let track_data := env.trackData track_id
  let album_data := album_ctx.getD track_data.album
  let st := st.net 1
  let urlOpt := env.fileUrl track_id
  if pyTruthy urlOpt then
    let url := urlOpt.getD ""
    let folder_path := folder_ctx.getD (mkFolderPath base_path album_data)
    let final_path := folder_path ++ "/" ++ mkFileName quality track_data
    if st.disk.hasFile final_path then (.ok (.existing final_path), st)
    else finishDownload env album_data track_data url folder_path final_path st
  else
    (.error "No download URL available. It might be a demo or restricted.", st)

/-- The per-track loop of `download_album`: each failure is caught and
logged (the second component counts `logger.error` calls), successes are
appended in order. -/
def albumLoop (env : Env) (quality : Nat) (base_path : String)
    (album : AlbumData) (folder_path : String) :
    List TrackItem → DLState → (List TrackResult × Nat) × DLState
  | [], st => (([], 0), st)
  | t :: ts, st =>
    match download_track env quality base_path t.id (some album) (some folder_path) st with
    | (.ok r, st') =>
      let tailRes := albumLoop env quality base_path album folder_path ts st'
      ((r :: tailRes.1.1, tailRes.1.2), tailRes.2)
    | (.error _, st') =>
      let tailRes := albumLoop env quality base_path album folder_path ts st'
      ((tailRes.1.1, tailRes.1.2 + 1), tailRes.2)

/-- The sequence of per-track outcomes of the album loop, with the state
threaded exactly as `albumLoop` threads it. -/
def albumOutcomes (env : Env) (quality : Nat) (base_path : String)
    (album : AlbumData) (folder_path : String) :
    List TrackItem → DLState → List (Except String TrackResult)
  | [], _ => []
  | t :: ts, st =>
    let r := download_track env quality base_path t.id (some album) (some folder_path) st
    r.1 :: albumOutcomes env quality base_path album folder_path ts r.2

/-- `QobuzDownloader.download_album`: fetch the album (one request), compute
the shared folder, then loop over the tracks. Returns the collected
`downloaded_data` and the number of logged per-track failures. -/
def download_album (env : Env) (quality : Nat) (base_path : String)
    (album_id : Nat) (st : DLState) : (List TrackResult × Nat) × DLState :=
  let st := st.net 1
  let album_data := env.albumData album_id
  let folder_path := mkFolderPath base_path album_data
  albumLoop env quality base_path album_data folder_path album_data.tracks st

/-- The successful results among a list of outcomes. -/
def okResults (rs : List (Except String TrackResult)) : List TrackResult :=
  rs.filterMap Except.toOption

/-- The number of failed outcomes. -/
def errCount (rs : List (Except String TrackResult)) : Nat :=
  rs.countP (fun r => !r.toOption.isSome)

/-! ## Lemmas on the probing loop -/

/-- The loop leaves the state untouched on an empty candidate list. -/
theorem findLoop_nil (resp : ProbeParams → Option Nat) (ts : Nat) (st : ClientState) :
    findLoop resp ts st [] = .failed st := rfl

/-- A rejected candidate (empty, exception, or a status other than 200/403 —
in particular 401) is skipped and the loop continues. -/
theorem findLoop_skip (resp : ProbeParams → Option Nat) (ts : Nat) (st : ClientState)
    (s : String) (rest : List String) (h : probeAccepted resp ts s = false) :
    findLoop resp ts st (s :: rest) = findLoop resp ts st rest := by
  unfold probeAccepted at h
  by_cases hs : (s == "") = true
  · simp [findLoop, hs]
  · rw [Bool.and_eq_false_iff] at h
    rcases h with h | h
    · simp only [Bool.not_eq_false'] at h
      exact absurd h hs
    · cases hr : resp (probe_params ts s) with
      | none => simp [findLoop, hs, hr]
      | some code =>
        rw [hr] at h
        have h200 : ¬(code = 200 ∨ code = 403) := by
          intro hc
          rcases hc with hc | hc <;> simp [hc] at h
        simp [findLoop, hs, hr, h200]

/-- An accepted candidate (nonempty, status 200 or 403) is stored as the
active secret and the loop stops. -/
theorem findLoop_hit (resp : ProbeParams → Option Nat) (ts : Nat) (st : ClientState)
    (s : String) (rest : List String) (h : probeAccepted resp ts s = true) :
    findLoop resp ts st (s :: rest) = .found { st with active_secret := some s } := by
  unfold probeAccepted at h
  rw [Bool.and_eq_true] at h
  obtain ⟨hs, hrest⟩ := h
  rw [Bool.not_eq_true'] at hs
  cases hr : resp (probe_params ts s) with
  | none => rw [hr] at hrest; simp at hrest
  | some code =>
    rw [hr] at hrest
    simp only [Bool.or_eq_true, beq_iff_eq] at hrest
    simp [findLoop, hs, hr, hrest]

/-- The probing loop is characterized by the first accepted candidate of
its list: it stops there with the state's `active_secret` set to it, and
fails with the state untouched when no candidate is accepted. -/
theorem findLoop_characterize (resp : ProbeParams → Option Nat) (ts : Nat)
    (st : ClientState) (l : List String) :
    (match l.find? (probeAccepted resp ts) with
     | some s => findLoop resp ts st l = .found { st with active_secret := some s }
     | none => findLoop resp ts st l = .failed st) := by
  induction l with
  | nil => simp [List.find?, findLoop_nil]
  | cons s rest ih =>
    cases hacc : probeAccepted resp ts s with
    | true =>
      rw [List.find?_cons_of_pos _ hacc]
      exact findLoop_hit resp ts st s rest hacc
    | false =>
      rw [List.find?_cons_of_neg _ (by simp [hacc])]
      rw [findLoop_skip resp ts st s rest hacc]
      exact ih

/-! ## Claim C2 -/

/-- C2: `_find_active_secret` probes the candidates in list order with a
signed `track/getFileUrl` request against the fixed test track id 5966783;
the first candidate whose probe status is 200 or 403 is stored as the
active secret and probing stops; a 401 (like any other non-200/403 outcome,
and like an exception) never disqualifies a candidate — the next one is
tried; exhausting all candidates raises the fatal error and leaves the
client state, in particular `active_secret`, untouched. The loop is
characterized by the first accepted candidate of the list. -/
theorem find_active_secret_first_accepted (resp : ProbeParams → Option Nat)
    (ts : Nat) (st : ClientState) :
    (match st.secrets.find? (probeAccepted resp ts) with
     | some s => find_active_secret resp ts st = .found { st with active_secret := some s }
     | none => find_active_secret resp ts st = .failed st) ∧
    (∀ s : String,
      (probe_params ts s).track_id = test_track_id ∧
      (probe_params ts s).format_id = 5 ∧
      (probe_params ts s).intent = "stream" ∧
      (probe_params ts s).request_sig =
        (generate_sig "track" "getFileUrl"
          { track_id := test_track_id, format_id := 5 } s ts).sig) := by
  refine ⟨findLoop_characterize resp ts st st.secrets, fun s => ⟨rfl, rfl, rfl, rfl⟩⟩

/-! ## Claim C4 -/

/-- The decoding loop keeps, in order, exactly the candidates whose
concatenation (with the trailing 44 characters discarded) base64- and
UTF-8-decodes. -/
theorem decodeLoop_eq_filterMap (d : ODict) :
    decodeLoop d = (d.map (fun p => String.join p.2)).filterMap decodeSecret := by
  induction d with
  | nil => rfl
  | cons p rest ih =>
    have hstep : decodeLoop (p :: rest) =
        decodeStep (decodeSecret (String.join p.2)) (decodeLoop rest) := rfl
    rw [hstep, List.map_cons, List.filterMap_cons]
    cases h : decodeSecret (String.join p.2) with
    | some v => simp [decodeStep, h, ih]
    | none => simp [decodeStep, h, ih]

/-- C4: for each discovered timezone, taken in candidate order, the
candidate secret is the base64+UTF-8 decoding of the seed+info+extras
concatenation with its trailing 44 characters discarded; candidates whose
decoding fails are dropped and the surviving order is preserved (the
produced list is the order-preserving `filterMap` of that decoding over the
scraped dict). -/
theorem scrape_secrets_decoding (pairs : List (String × String))
    (entries : List (String × String × String)) :
    scrape_secrets pairs entries =
      ((scrapeDict pairs entries).map (fun p => String.join p.2)).filterMap
        (fun j => (b64decodeBytes (j.dropRight 44)).bind utf8Decode) := by
  have base := decodeLoop_eq_filterMap (scrapeDict pairs entries)
  exact base

/-! ## Claim C5 -/

/-- C5: `_generate_sig` returns `(ts, digest)` where the digest is the
hex-encoded MD5 of the method-specific canonical string — the literal
`getFileUrl` template for `getFileUrl`, and `entity+method+ts+secret` for
any method without a known template (`getFileUrl`/`getUserFavorites` are
the known ones); same inputs with the same timestamp give identical
results. -/
theorem generate_sig_canonical (entity method : String) (p : SigParams)
    (secret : String) (ts : Nat) :
    generate_sig entity "getFileUrl" p secret ts =
      { ts := ts,
        sig := md5hex (utf8Encode ("trackgetFileUrlformat_id" ++ toString p.format_id ++
          "intentstreamtrack_id" ++ toString p.track_id ++ toString ts ++ secret)) } ∧
    (method ≠ "getFileUrl" → method ≠ "getUserFavorites" →
      generate_sig entity method p secret ts =
        { ts := ts,
          sig := md5hex (utf8Encode (entity ++ method ++ toString ts ++ secret)) }) ∧
    generate_sig entity method p secret ts = generate_sig entity method p secret ts := by
  refine ⟨rfl, ?_, rfl⟩
  intro h1 h2
  simp [generate_sig, h1, h2]

/-- Witness for C5 at concrete inputs: `"artist"/"get"` has no template, so
the fallback canonical string is used. -/
theorem generate_sig_canonical_witness :
    generate_sig "artist" "get" { track_id := 1, format_id := 2 } "sec" 100 =
      { ts := 100,
        sig := md5hex (utf8Encode ("artist" ++ "get" ++ toString 100 ++ "sec")) } :=
  (generate_sig_canonical "artist" "get" { track_id := 1, format_id := 2 } "sec" 100).2.1
    (by decide) (by decide)

/-! ## Claim C9 -/

/-- C9: evaluating `format_copyright` at the marker inputs shows the glyphs
are swapped relative to the claim: `"(P)"` is replaced by U+00A9 © (the
copyright sign) and `"(C)"` by U+2117 ℗ (the phonogram sign) — the
constants `COPYRIGHT`/`PHON_COPYRIGHT` hold the glyph opposite to their
names, so the code contradicts the claimed (and intended)
marker-for-glyph substitution. -/
theorem format_copyright_glyphs_swapped :
    format_copyright "(P) 2024 Label (C) 2024" =
      "© 2024 Label ℗ 2024" ∧
    format_copyright "(P)" = "©" ∧
    format_copyright "(C)" = "℗" ∧
    PHON_COPYRIGHT = "©" ∧ COPYRIGHT = "℗" := by
  refine ⟨by decide, by decide, by decide, rfl, rfl⟩

/-! ## Claim C10 -/

/-- C10: `get_audio_info` classifies a parsed FLAC file as `"Hi-Res"`
exactly when bit depth (default 16) exceeds 16 or the sample rate exceeds
48000 Hz, and as `"CD"` otherwise; in particular 24-bit/44100 Hz is
`"Hi-Res"` and 16-bit/44100 Hz is `"CD"`. -/
theorem get_audio_info_hires_classification (info : FlacStreamInfo) :
    (get_audio_info (.flac info) =
      "FLAC " ++
        (if info.bits_per_sample.getD 16 > 16 ∨ info.sample_rate > 48000
          then "Hi-Res" else "CD") ++
        " " ++ toString (info.bits_per_sample.getD 16) ++ "-Bit / " ++
        formatKHz info.sample_rate ++ " kHz / " ++
        toString (if info.bitrate > 0 then info.bitrate / 1000 else info.fallbackBitrate) ++
        " kbps") ∧
    (info.bits_per_sample = some 24 → info.sample_rate = 44100 →
      ∃ rest, get_audio_info (.flac info) = "FLAC Hi-Res " ++ rest) ∧
    (info.bits_per_sample = some 16 → info.sample_rate = 44100 →
      ∃ rest, get_audio_info (.flac info) = "FLAC CD " ++ rest) := by
  refine ⟨rfl, ?_, ?_⟩
  · intro hb hr
    refine ⟨toString 24 ++ "-Bit / " ++ formatKHz 44100 ++ " kHz / " ++
      toString (if info.bitrate > 0 then info.bitrate / 1000 else info.fallbackBitrate) ++
      " kbps", ?_⟩
    show "FLAC " ++ _ ++ " " ++ _ ++ "-Bit / " ++ _ ++ " kHz / " ++ _ ++ " kbps" = _
    rw [hb, hr]
    have hpre : ("FLAC " ++ (if (some 24 : Option Nat).getD 16 > 16 ∨ (44100 : Nat) > 48000
        then "Hi-Res" else "CD") ++ " ") = "FLAC Hi-Res " := by decide
    rw [hpre]
    simp [String.append_assoc]
  · intro hb hr
    refine ⟨toString 16 ++ "-Bit / " ++ formatKHz 44100 ++ " kHz / " ++
      toString (if info.bitrate > 0 then info.bitrate / 1000 else info.fallbackBitrate) ++
      " kbps", ?_⟩
    show "FLAC " ++ _ ++ " " ++ _ ++ "-Bit / " ++ _ ++ " kHz / " ++ _ ++ " kbps" = _
    rw [hb, hr]
    have hpre : ("FLAC " ++ (if (some 16 : Option Nat).getD 16 > 16 ∨ (44100 : Nat) > 48000
        then "Hi-Res" else "CD") ++ " ") = "FLAC CD " := by decide
    rw [hpre]
    simp [String.append_assoc]

/-- Witness for C10: a 24-bit/44100 Hz stream is captioned Hi-Res, a
16-bit/44100 Hz stream CD. -/
theorem get_audio_info_hires_classification_witness :
    (∃ rest, get_audio_info (.flac ⟨some 24, 44100, 1411000, 0⟩) = "FLAC Hi-Res " ++ rest) ∧
    (∃ rest, get_audio_info (.flac ⟨some 16, 44100, 1411000, 0⟩) = "FLAC CD " ++ rest) :=
  ⟨(get_audio_info_hires_classification ⟨some 24, 44100, 1411000, 0⟩).2.1 rfl rfl,
   (get_audio_info_hires_classification ⟨some 16, 44100, 1411000, 0⟩).2.2 rfl rfl⟩

/-! ## Claim C3 -/

/-- The info/extras values accumulated for the dict key `k` by the
info/extras loop, in document order. -/
def gather (keys : List String) (k : String) :
    List (String × String × String) → List String
  | [] => []
  | e :: es =>
    (if (keys.map pyCapitalize).contains e.1 && k == strLower e.1
      then [e.2.1, e.2.2] else [])
      ++ gather keys k es

/-- The info/extras loop acts entry-wise on the dict: each entry's value is
extended by exactly the matches gathered for its key, and the entry order
never changes. -/
theorem applyInfoExtras_eq_map (keys : List String)
    (es : List (String × String × String)) (d : ODict) :
    applyInfoExtras keys d es =
      d.map (fun p => (p.1, p.2 ++ gather keys p.1 es)) := by
  induction es generalizing d with
  | nil =>
    simp [applyInfoExtras, gather]
  | cons e es ih =>
    show applyInfoExtras keys
      (if (keys.map pyCapitalize).contains e.1
        then odAppend d (strLower e.1) [e.2.1, e.2.2] else d) es = _
    by_cases hc : ((keys.map pyCapitalize).contains e.1) = true
    · rw [if_pos hc, ih]
      unfold odAppend
      rw [List.map_map]
      congr 1
      funext p
      show (fun p => (p.1, p.2 ++ gather keys p.1 es))
          (if p.1 == strLower e.1 then (p.1, p.2 ++ [e.2.1, e.2.2]) else p) =
        (p.1, p.2 ++ gather keys p.1 (e :: es))
      by_cases hk : (p.1 == strLower e.1) = true
      · rw [if_pos hk]
        have hg : gather keys p.1 (e :: es) = [e.2.1, e.2.2] ++ gather keys p.1 es := by
          rw [gather, hc, hk]
          rfl
        show (p.1, (p.2 ++ [e.2.1, e.2.2]) ++ gather keys p.1 es) =
          (p.1, p.2 ++ gather keys p.1 (e :: es))
        rw [hg, List.append_assoc]
      · rw [if_neg hk]
        have hk' : (p.1 == strLower e.1) = false := by
          cases hkk : (p.1 == strLower e.1) with
          | true => exact absurd hkk hk
          | false => rfl
        have hg : gather keys p.1 (e :: es) = gather keys p.1 es := by
          rw [gather, hc, hk']
          rfl
        show (p.1, p.2 ++ gather keys p.1 es) = (p.1, p.2 ++ gather keys p.1 (e :: es))
        rw [hg]
    · rw [if_neg hc, ih]
      congr 1
      funext p
      show (p.1, p.2 ++ gather keys p.1 es) = (p.1, p.2 ++ gather keys p.1 (e :: es))
      have hc' : ((keys.map pyCapitalize).contains e.1) = false := by
        cases hcc : ((keys.map pyCapitalize).contains e.1) with
        | true => exact absurd hcc hc
        | false => rfl
      have hg : gather keys p.1 (e :: es) = gather keys p.1 es := by
        rw [gather, hc']
        rfl
      rw [hg]

/-- One unfolding step of the decoding loop. -/
theorem decodeLoop_cons (p : String × List String) (rest : ODict) :
    decodeLoop (p :: rest) =
      decodeStep (decodeSecret (String.join p.2)) (decodeLoop rest) := rfl

/-- A captured bundle for the counterexample: two (seed, timezone) pairs in
document order; the second timezone's concatenation (45 characters, one
data character after the 44-character haircut) fails base64 decoding, the
first timezone's decodes to `"secret"`. -/
def pairsCX : List (String × String) :=
  [("c2VjcmV0" ++ String.mk (List.replicate 44 'A'), "berlin"),
   (String.mk (List.replicate 45 'A'), "paris")]

set_option maxRecDepth 40000 in
/-- C3 counterexample: on `pairsCX` — a bundle text with two (seed,
timezone) pairs whose second-discovered timezone is `"paris"` — the
candidate list produced is `["secret"]`, whose first element is the first
timezone's (`"berlin"`) secret: `"paris"`'s candidate failed decoding and
was dropped, so the first element is not derived from the second
discovered timezone, refuting the claim as stated. -/
theorem scrape_second_timezone_counterexample :
    ((buildSeedDict pairsCX).map (fun p => p.1)).get? 1 = some "paris" ∧
    decodeSecret (combinedOf pairsCX [] "paris") = none ∧
    scrape_secrets pairsCX [] = ["secret"] ∧
    decodeSecret (combinedOf pairsCX [] "berlin") = some "secret" :=
  ⟨by decide, by decide, by decide, by decide⟩

/-- C3 amended: when the bundle has at least two distinct discovered
timezones and the second one's concatenated candidate decodes successfully,
that decoded secret is the first element of the produced candidate list
(the reorder-to-front quirk, modulo decode-failure dropping). -/
theorem scrape_second_timezone_first (pairs : List (String × String))
    (entries : List (String × String × String)) (tz2 v : String)
    (h1 : ((buildSeedDict pairs).map (fun p => p.1)).get? 1 = some tz2)
    (h2 : decodeSecret (combinedOf pairs entries tz2) = some v) :
    (scrape_secrets pairs entries).head? = some v := by
  obtain ⟨e0, e1, rest, hd⟩ : ∃ e0 e1 rest, buildSeedDict pairs = e0 :: e1 :: rest := by
    cases hb : buildSeedDict pairs with
    | nil => rw [hb] at h1; simp at h1
    | cons a tl =>
      cases tl with
      | nil => rw [hb] at h1; simp at h1
      | cons b r => exact ⟨a, b, r, rfl⟩
  have htz : e1.1 = tz2 := by
    rw [hd] at h1
    simpa using h1
  have hcand : candidateDict pairs = e1 :: e0 :: rest := by
    rw [candidateDict, hd]
    rfl
  have hsd : scrapeDict pairs entries =
      (e1.1, e1.2 ++ gather ((candidateDict pairs).map (fun p => p.1)) e1.1 entries) ::
        ((e0 :: rest).map (fun p =>
          (p.1, p.2 ++ gather ((candidateDict pairs).map (fun p => p.1)) p.1 entries))) := by
    rw [scrapeDict, applyInfoExtras_eq_map, hcand]
    rfl
  have hcomb : combinedOf pairs entries tz2 =
      String.join (e1.2 ++ gather ((candidateDict pairs).map (fun p => p.1)) e1.1 entries) := by
    rw [combinedOf, hsd, List.find?_cons_of_pos _ (by simp [htz])]
    rfl
  show (decodeLoop (scrapeDict pairs entries)).head? = some v
  rw [hsd, decodeLoop_cons]
  rw [hcomb] at h2
  rw [h2]
  rfl

/-! ## Claim C6 -/

/-- Did this cover probe outcome return HTTP 200? (`none` is an exception.) -/
def isOk200 (r : Option (Nat × List Nat)) : Bool :=
  match r with
  | some pr => pr.1 == 200
  | none => false

/-- A nonempty URL answering 200 wins: its bytes are written to the cover
path after exactly one request. -/
theorem coverLoop_cons (resp : String → Option (Nat × List Nat)) (p url : String)
    (rest : List String) (st : DLState) :
    coverLoop resp p (url :: rest) st =
      if url == "" then coverLoop resp p rest st
      else
        match resp url with
        | some r =>
          if r.1 = 200 then
            (some p, { disk := st.disk.writeFile p r.2, netCalls := st.netCalls + 1 })
          else coverLoop resp p rest (st.net 1)
        | none => coverLoop resp p rest (st.net 1) := rfl

/-- A nonempty URL answering 200 wins: its bytes are written to the cover
path after exactly one request. -/
theorem coverLoop_hit (resp : String → Option (Nat × List Nat)) (p url : String)
    (rest : List String) (st : DLState) (bs : List Nat)
    (h : url ≠ "") (hr : resp url = some (200, bs)) :
    coverLoop resp p (url :: rest) st =
      (some p, { disk := st.disk.writeFile p bs, netCalls := st.netCalls + 1 }) := by
  rw [coverLoop_cons, if_neg (by simp [h]), hr]
  rfl

/-- A nonempty URL that does not answer 200 (another status, or an
exception) costs one request and the loop moves on. -/
theorem coverLoop_miss (resp : String → Option (Nat × List Nat)) (p url : String)
    (rest : List String) (st : DLState)
    (h : url ≠ "") (hm : isOk200 (resp url) = false) :
    coverLoop resp p (url :: rest) st = coverLoop resp p rest (st.net 1) := by
  rw [coverLoop_cons, if_neg (by simp [h])]
  cases hrr : resp url with
  | none => rfl
  | some r =>
    show (if r.1 = 200 then
        (some p, { disk := st.disk.writeFile p r.2, netCalls := st.netCalls + 1 })
      else coverLoop resp p rest (st.net 1)) = coverLoop resp p rest (st.net 1)
    rw [hrr] at hm
    have hne : ¬(r.1 = 200) := by simpa [isOk200] using hm
    rw [if_neg hne]

/-- C6: `_download_cover` returns the existing `cover.jpg` immediately with
no request; otherwise it probes the guessed original-resolution URL, the
known large URL, then the known small URL, strictly in that order, writing
the bytes of the first URL answering 200 — when only the third answers 200,
exactly 3 requests are issued; when all three fail, no exception escapes,
no path is returned, and exactly 3 requests were issued. -/
theorem download_cover_fallback (resp : String → Option (Nat × List Nat))
    (img : AlbumImage) (folder : String) (st : DLState) :
    (st.disk.hasFile (folder ++ "/cover.jpg") = true →
      download_cover resp img folder st = (some (folder ++ "/cover.jpg"), st)) ∧
    (∀ bs, st.disk.hasFile (folder ++ "/cover.jpg") = false →
      pyReplace img.large "_600.jpg" "_org.jpg" ≠ "" →
      resp (pyReplace img.large "_600.jpg" "_org.jpg") = some (200, bs) →
      download_cover resp img folder st =
        (some (folder ++ "/cover.jpg"),
         { disk := st.disk.writeFile (folder ++ "/cover.jpg") bs,
           netCalls := st.netCalls + 1 })) ∧
    (∀ bs, st.disk.hasFile (folder ++ "/cover.jpg") = false →
      pyReplace img.large "_600.jpg" "_org.jpg" ≠ "" → img.large ≠ "" → img.small ≠ "" →
      isOk200 (resp (pyReplace img.large "_600.jpg" "_org.jpg")) = false →
      isOk200 (resp img.large) = false →
      resp img.small = some (200, bs) →
      download_cover resp img folder st =
        (some (folder ++ "/cover.jpg"),
         { disk := st.disk.writeFile (folder ++ "/cover.jpg") bs,
           netCalls := st.netCalls + 3 })) ∧
    (st.disk.hasFile (folder ++ "/cover.jpg") = false →
      pyReplace img.large "_600.jpg" "_org.jpg" ≠ "" → img.large ≠ "" → img.small ≠ "" →
      isOk200 (resp (pyReplace img.large "_600.jpg" "_org.jpg")) = false →
      isOk200 (resp img.large) = false →
      isOk200 (resp img.small) = false →
      download_cover resp img folder st =
        (none, { st with netCalls := st.netCalls + 3 })) := by
  refine ⟨?_, ?_, ?_, ?_⟩
  · intro hex
    simp only [download_cover]
    rw [if_pos hex]
  · intro bs hex h1 hr1
    simp only [download_cover]
    rw [if_neg (by simp [hex])]
    rw [coverLoop_hit resp _ _ _ _ bs h1 hr1]
  · intro bs hex h1 h2 h3 hm1 hm2 hr3
    simp only [download_cover]
    rw [if_neg (by simp [hex])]
    rw [coverLoop_miss resp _ _ _ _ h1 hm1]
    rw [coverLoop_miss resp _ _ _ _ h2 hm2]
    rw [coverLoop_hit resp _ _ _ _ bs h3 hr3]
    rfl
  · intro hex h1 h2 h3 hm1 hm2 hm3
    simp only [download_cover]
    rw [if_neg (by simp [hex])]
    rw [coverLoop_miss resp _ _ _ _ h1 hm1]
    rw [coverLoop_miss resp _ _ _ _ h2 hm2]
    rw [coverLoop_miss resp _ _ _ _ h3 hm3]
    rfl

/-- Witness for C6: three nonempty candidates where only the small URL
answers 200 — its bytes are written after exactly 3 requests. -/
theorem download_cover_fallback_witness :
    download_cover
      (fun u => if u == "s.jpg" then some (200, [7]) else some (404, []))
      { large := "L_600.jpg", small := "s.jpg" } "alb" { disk := [], netCalls := 0 } =
      (some "alb/cover.jpg",
       { disk := Disk.writeFile [] "alb/cover.jpg" [7], netCalls := 3 }) :=
  ((download_cover_fallback
      (fun u => if u == "s.jpg" then some (200, [7]) else some (404, []))
      { large := "L_600.jpg", small := "s.jpg" } "alb"
      { disk := [], netCalls := 0 }).2.2.1 [7]
    (by decide) (by decide) (by decide) (by decide) (by decide) (by decide) (by decide))

/-! ## Claim C7 -/

/-- A successful outcome is collected. -/
theorem okResults_cons_ok (v : TrackResult) (rs : List (Except String TrackResult)) :
    okResults (.ok v :: rs) = v :: okResults rs := by
  simp [okResults, Except.toOption]

/-- A failed outcome is dropped from the results. -/
theorem okResults_cons_error (e : String) (rs : List (Except String TrackResult)) :
    okResults (.error e :: rs) = okResults rs := by
  simp [okResults, Except.toOption]

/-- A successful outcome is not counted as a failure. -/
theorem errCount_cons_ok (v : TrackResult) (rs : List (Except String TrackResult)) :
    errCount (.ok v :: rs) = errCount rs := by
  simp [errCount, Except.toOption]

/-- A failed outcome is counted once. -/
theorem errCount_cons_error (e : String) (rs : List (Except String TrackResult)) :
    errCount (.error e :: rs) = errCount rs + 1 := by
  simp [errCount, Except.toOption]

/-- The album loop returns exactly the successful per-track results, in
order, and logs one failure per failed track. -/
theorem albumLoop_characterize (env : Env) (quality : Nat) (base_path : String)
    (album : AlbumData) (folder : String) (ts : List TrackItem) (st : DLState) :
    (albumLoop env quality base_path album folder ts st).1.1 =
      okResults (albumOutcomes env quality base_path album folder ts st) ∧
    (albumLoop env quality base_path album folder ts st).1.2 =
      errCount (albumOutcomes env quality base_path album folder ts st) := by
  induction ts generalizing st with
  | nil => exact ⟨rfl, rfl⟩
  | cons t ts ih =>
    rcases hdl : download_track env quality base_path t.id (some album) (some folder) st
      with ⟨r, st'⟩
    have hOut : albumOutcomes env quality base_path album folder (t :: ts) st =
        r :: albumOutcomes env quality base_path album folder ts st' := by
      rw [albumOutcomes, hdl]
    cases r with
    | ok v =>
      have hLoop : albumLoop env quality base_path album folder (t :: ts) st =
          ((v :: (albumLoop env quality base_path album folder ts st').1.1,
            (albumLoop env quality base_path album folder ts st').1.2),
           (albumLoop env quality base_path album folder ts st').2) := by
        rw [albumLoop, hdl]
      rw [hLoop, hOut, okResults_cons_ok, errCount_cons_ok]
      exact ⟨by rw [(ih st').1], (ih st').2⟩
    | error e =>
      have hLoop : albumLoop env quality base_path album folder (t :: ts) st =
          (((albumLoop env quality base_path album folder ts st').1.1,
            (albumLoop env quality base_path album folder ts st').1.2 + 1),
           (albumLoop env quality base_path album folder ts st').2) := by
        rw [albumLoop, hdl]
      rw [hLoop, hOut, okResults_cons_error, errCount_cons_error]
      exact ⟨(ih st').1, by rw [(ih st').2]⟩

/-- Every track contributes exactly one outcome. -/
theorem albumOutcomes_length (env : Env) (quality : Nat) (base_path : String)
    (album : AlbumData) (folder : String) (ts : List TrackItem) (st : DLState) :
    (albumOutcomes env quality base_path album folder ts st).length = ts.length := by
  induction ts generalizing st with
  | nil => rfl
  | cons t ts ih =>
    rw [albumOutcomes]
    simp only [List.length_cons]
    rw [ih]

/-- Successes and failures partition the outcomes. -/
theorem okResults_length_add_errCount (rs : List (Except String TrackResult)) :
    (okResults rs).length + errCount rs = rs.length := by
  induction rs with
  | nil => rfl
  | cons r rs ih =>
    cases r with
    | ok v =>
      rw [okResults_cons_ok, errCount_cons_ok, List.length_cons, List.length_cons]
      omega
    | error e =>
      rw [okResults_cons_error, errCount_cons_error, List.length_cons]
      omega

/-- C7: when exactly one per-track download of the album run raises an
error (for example its stream resolution fails), `download_album` catches
it, logs exactly one failure, and returns the N-1 successful per-track
results in order. -/
theorem download_album_one_failure (env : Env) (quality : Nat) (base_path : String)
    (album_id : Nat) (st : DLState)
    (h : errCount (albumOutcomes env quality base_path (env.albumData album_id)
      (mkFolderPath base_path (env.albumData album_id))
      (env.albumData album_id).tracks (st.net 1)) = 1) :
    (download_album env quality base_path album_id st).1.1 =
      okResults (albumOutcomes env quality base_path (env.albumData album_id)
        (mkFolderPath base_path (env.albumData album_id))
        (env.albumData album_id).tracks (st.net 1)) ∧
    (download_album env quality base_path album_id st).1.1.length =
      (env.albumData album_id).tracks.length - 1 ∧
    (download_album env quality base_path album_id st).1.2 = 1 := by
  have hchar := albumLoop_characterize env quality base_path (env.albumData album_id)
    (mkFolderPath base_path (env.albumData album_id))
    (env.albumData album_id).tracks (st.net 1)
  have hda : download_album env quality base_path album_id st =
      albumLoop env quality base_path (env.albumData album_id)
        (mkFolderPath base_path (env.albumData album_id))
        (env.albumData album_id).tracks (st.net 1) := rfl
  rw [hda]
  refine ⟨hchar.1, ?_, by rw [hchar.2, h]⟩
  rw [hchar.1]
  have hlen := okResults_length_add_errCount (albumOutcomes env quality base_path
    (env.albumData album_id) (mkFolderPath base_path (env.albumData album_id))
    (env.albumData album_id).tracks (st.net 1))
  have hout := albumOutcomes_length env quality base_path (env.albumData album_id)
    (mkFolderPath base_path (env.albumData album_id))
    (env.albumData album_id).tracks (st.net 1)
  omega

/-! ## Claims C1 and C8 -/

/-- A freshly written file exists. -/
theorem hasFile_writeFile_self (d : Disk) (p : String) (c : List Nat) :
    (d.writeFile p c).hasFile p = true := by
  simp [Disk.writeFile, Disk.hasFile]

/-- Removing a different path does not affect a file's existence. -/
theorem hasFile_removeFile_ne (d : Disk) (p q : String) (h : ¬(p = q)) :
    (d.removeFile q).hasFile p = d.hasFile p := by
  unfold Disk.removeFile Disk.hasFile
  induction d with
  | nil => rfl
  | cons e d ih =>
    rw [List.filter_cons, List.any_cons]
    by_cases he : (e.1 == q) = true
    · have he1 : e.1 = q := by simpa using he
      have hep : (e.1 == p) = false := by
        rw [he1]
        simp
        intro hh
        exact h hh.symm
      rw [if_neg (by simp [he]), ih]
      simp [hep]
    · rw [if_pos (by simp [he]), List.any_cons, ih]

/-- No path equals itself extended with the `.tmp` suffix. -/
theorem self_ne_append_tmp (p : String) : ¬(p = p ++ ".tmp") := by
  intro hh
  have hlen := congrArg String.length hh
  rw [String.length_append] at hlen
  have h4 : (".tmp").length = 4 := rfl
  omega

/-- After the tagging rename the final path exists on disk. -/
theorem hasFile_tag_finalize (p : String) (st : DLState) :
    (tag_finalize (p ++ ".tmp") p st).disk.hasFile p = true := by
  unfold tag_finalize
  rw [hasFile_removeFile_ne _ _ _ (self_ne_append_tmp p), hasFile_writeFile_self]

/-- A successful full download pipeline returns the `completed` triple at
exactly the computed final path, and leaves that final path on disk. -/
theorem finishDownload_ok (env : Env) (album : AlbumData) (track : TrackData)
    (url folder_path final_path : String) (st st' : DLState) (r : TrackResult)
    (h : finishDownload env album track url folder_path final_path st = (.ok r, st')) :
    (∃ c pi, r = .completed final_path c pi) ∧ st'.disk.hasFile final_path = true := by
  simp only [finishDownload] at h
  cases hs : env.streamResp url with
  | error e => rw [hs] at h; simp at h
  | ok bytes =>
    rw [hs] at h
    simp only [Prod.mk.injEq, Except.ok.injEq] at h
    obtain ⟨hr, hstate⟩ := h
    refine ⟨⟨_, _, hr.symm⟩, ?_⟩
    rw [← hstate]
    exact hasFile_tag_finalize final_path _

/-- C1 amended: when a first `download_track` call (same inputs, no album
or folder context) completes fully, a second call with identical inputs
short-circuits before any re-download, cover fetch, or re-tagging: it
returns the same final path (as the bare `existing` result), leaves the
disk untouched, and issues exactly the two metadata/file-URL requests —
two network calls, not zero. -/
theorem download_track_idempotent (env : Env) (quality : Nat) (base_path : String)
    (track_id : Nat) (st st1 : DLState) (p c : String) (pi : PlayerInfo)
    (h : download_track env quality base_path track_id none none st =
      (.ok (.completed p c pi), st1)) :
    download_track env quality base_path track_id none none st1 =
      (.ok (.existing p), { st1 with netCalls := st1.netCalls + 2 }) := by
  simp only [download_track, Option.getD_none, DLState.net] at h ⊢
  by_cases hurl : pyTruthy (env.fileUrl track_id) = true
  case neg =>
    rw [if_neg hurl] at h
    simp at h
  case pos =>
    rw [if_pos hurl] at h ⊢
    by_cases hex : (st.disk.hasFile
        (mkFolderPath base_path (env.trackData track_id).album ++ "/" ++
          mkFileName quality (env.trackData track_id))) = true
    · rw [if_pos hex] at h
      simp at h
    · rw [if_neg hex] at h
      obtain ⟨⟨c2, pi2, hr2⟩, hhas⟩ := finishDownload_ok env _ _ _ _ _ _ _ _ h
      injection hr2 with hp hc hpi
      subst hp
      rw [if_pos hhas]

deriving instance DecidableEq for Except

/-- A concrete album for worked runs of the pipeline. -/
def demoAlbum : AlbumData :=
  { artist_name := "Artist",
    title := "Album",
    release_date_original := "2020-01-01",
    image := { large := "http://x_600.jpg", small := "http://s.jpg" },
    tracks := [] }

/-- A concrete environment: track 1 streams fine, track 2 has no stream
URL (`NoStreamAvailable`), covers answer 200 everywhere. -/
def envDemo : Env :=
  { trackData := fun _ =>
      { title := "Song",
        version := none,
        work := none,
        track_number := 1,
        duration := some 100,
        album := demoAlbum },
    albumData := fun _ => { demoAlbum with tracks := [⟨1, "One"⟩, ⟨2, "Two"⟩] },
    fileUrl := fun i => if i == 2 then none else some "http://audio",
    streamResp := fun _ => .ok [1, 2, 3],
    coverResp := fun _ => some (200, [9]),
    thumbBytes := fun c => c,
    audioInfoOf := fun _ _ => "FLAC CD 16-Bit / 44.1 kHz / 900 kbps" }

/-- The downloader state left by the first full `envDemo` run of track 1. -/
def demoState1 : DLState :=
  { disk := [("dl/Artist - Album (2020)/01. Song.flac", [1, 2, 3]),
             ("dl/Artist - Album (2020)/thumb.jpg", [9]),
             ("dl/Artist - Album (2020)/cover.jpg", [9])],
    netCalls := 4 }

set_option maxRecDepth 20000 in
/-- C1 counterexample: with the final file already present after a first
identical call, the second `download_track` call still issues the metadata
and file-URL requests — its network-call count grows by exactly 2, not 0 —
while returning the same final path. -/
theorem download_track_second_call_counterexample :
    ¬((download_track envDemo 6 "dl" 1 none none
        (download_track envDemo 6 "dl" 1 none none ⟨[], 0⟩).2).2.netCalls =
      (download_track envDemo 6 "dl" 1 none none ⟨[], 0⟩).2.netCalls) ∧
    (download_track envDemo 6 "dl" 1 none none
        (download_track envDemo 6 "dl" 1 none none ⟨[], 0⟩).2).2.netCalls =
      (download_track envDemo 6 "dl" 1 none none ⟨[], 0⟩).2.netCalls + 2 ∧
    (download_track envDemo 6 "dl" 1 none none
        (download_track envDemo 6 "dl" 1 none none ⟨[], 0⟩).2).1 =
      .ok (.existing "dl/Artist - Album (2020)/01. Song.flac") :=
  ⟨by decide, by decide, by decide⟩

set_option maxRecDepth 20000 in
/-- Witness for the amended C1 at the concrete environment: the first call
completed at 4 requests; the second returns the same path with the disk
untouched and exactly 2 more requests. -/
theorem download_track_idempotent_witness :
    download_track envDemo 6 "dl" 1 none none demoState1 =
      (.ok (.existing "dl/Artist - Album (2020)/01. Song.flac"),
       { disk := demoState1.disk, netCalls := 6 }) :=
  download_track_idempotent envDemo 6 "dl" 1 ⟨[], 0⟩ demoState1
    "dl/Artist - Album (2020)/01. Song.flac"
    "FLAC CD 16-Bit / 44.1 kHz / 900 kbps"
    { title := "Song", performer := "Artist", duration := some 100,
      cover := some "dl/Artist - Album (2020)/cover.jpg",
      thumbnail := some "dl/Artist - Album (2020)/thumb.jpg",
      folder_path := "dl/Artist - Album (2020)" }
    (by decide)

set_option maxRecDepth 20000 in
/-- C8: a fully downloading invocation returns the `(path, caption,
player_info)` triple, but the successful invocation that finds the final
file already on disk returns only the bare final path (downloader.py line
57) — not the claimed triple, which every caller unpacks. -/
theorem download_track_existing_returns_bare_path :
    (download_track envDemo 6 "dl" 1 none none ⟨[], 0⟩).1 =
      .ok (.completed "dl/Artist - Album (2020)/01. Song.flac"
        "FLAC CD 16-Bit / 44.1 kHz / 900 kbps"
        { title := "Song", performer := "Artist", duration := some 100,
          cover := some "dl/Artist - Album (2020)/cover.jpg",
          thumbnail := some "dl/Artist - Album (2020)/thumb.jpg",
          folder_path := "dl/Artist - Album (2020)" }) ∧
    (download_track envDemo 6 "dl" 1 none none demoState1).1 =
      .ok (.existing "dl/Artist - Album (2020)/01. Song.flac") :=
  ⟨by decide, by decide⟩

set_option maxRecDepth 20000 in
/-- Witness for C7: in the concrete two-track album where track 2's stream
resolution fails, exactly one failure is logged and 1 = 2-1 results come
back. -/
theorem download_album_one_failure_witness :
    (download_album envDemo 6 "dl" 7 ⟨[], 0⟩).1.1.length =
      (envDemo.albumData 7).tracks.length - 1 ∧
    (download_album envDemo 6 "dl" 7 ⟨[], 0⟩).1.2 = 1 :=
  ⟨(download_album_one_failure envDemo 6 "dl" 7 ⟨[], 0⟩ (by decide)).2.1,
   (download_album_one_failure envDemo 6 "dl" 7 ⟨[], 0⟩ (by decide)).2.2⟩

/-- A captured bundle whose second timezone's candidate decodes cleanly. -/
def pairsW : List (String × String) :=
  [("QQ==", "berlin"), ("c2VjcmV0" ++ String.mk (List.replicate 44 'A'), "paris")]

set_option maxRecDepth 40000 in
/-- Witness for the amended C3: with the second timezone's candidate
decodable, it heads the produced list. -/
theorem scrape_second_timezone_first_witness :
    (scrape_secrets pairsW []).head? = some "secret" :=
  scrape_second_timezone_first pairsW [] "paris" "secret" (by decide) (by decide)

end QDL
